import Mathlib

/-!
Shallow embedding of the Top-Smart-File-Transfer-System repository.

Coordinator side: src/coordinator/app.py (Flask handlers upload_init,
upload_chunk, missing, assemble, download_file, plus the SQLite schema of
the authoritative second init_db).  Sender side: src/sender/send_file.py
(adaptive_chunk_size, the re-split decision and the chunk read of the
main loop, and the missing-list loop exit).

Modelling conventions:
- SQLite tables are lists of row structures kept in rowid (insertion)
  order; INSERT OR REPLACE removes the conflicting row and appends the
  new one at the end, which is exactly what SQLite does to rowids.
- A handler is a pure function from a request and a State to an
  HttpResp and a new State.  Clock reads (time.time, datetime.now) are
  passed in as rational parameters.
- SHA-256 (hashlib.sha256(...).hexdigest()) is treated as an opaque pure
  function of the byte list, passed as the parameter sha.  The handlers
  only ever apply it and compare results for string equality, so every
  theorem below is proved for an arbitrary such function unless it is a
  concrete counterexample, which instantiates it.
- Python float values (speeds, elapsed times) are modelled as exact
  rationals; no claim depends on a float value, only on which response
  fields and state updates occur.  Chunk-size arithmetic on the sender
  (int(current * 1.2) etc.) is modelled exactly in Nat; see the comment
  at adaptiveChunkSize.
- The uncaught AttributeError raised in upload_chunk when the in-memory
  transfer_stats start_time is None (it is never assigned anywhere in
  app.py) is modelled faithfully: the enclosing except-handler returns
  HTTP 500 and the open SQLite transaction is rolled back on close,
  while the chunk file already written to staging and the in-memory
  statistics mutations persist.
-/

namespace SFTS

/-- Raw bytes of a chunk, as a list of byte values. -/
abbrev Bytes := List Nat

/-- JSON-ish values appearing in the handler responses built by jsonify. -/
inductive JVal where
  | str (s : String)
  | int (i : Int)
  | num (q : Rat)
  | bool (b : Bool)
  | intList (l : List Int)
deriving DecidableEq, Repr

/-- A JSON object: an ordered field list, as built by the Python dict literals. -/
abbrev JObj := List (String × JVal)

/-- An HTTP response: status code plus JSON body. -/
structure HttpResp where
  code : Nat
  body : JObj
deriving DecidableEq, Repr

/-- Events emitted on the socketio bus, with the payload fields of app.py. -/
inductive Event where
  | manifestEv (file_id filename : String) (size : Nat) (total_chunks : Nat) (priority : String)
  | chunkEv (file_id : String) (chunk_id : Int) (received total : Nat)
      (filename : String) (chunk_size : Nat) (speed : Rat)
  | transferComplete (file_id filename : String)
  | assembledEv (file_id filename : String)
  | errorEv (file_id : String) (chunk_id : Int) (message : String)
deriving DecidableEq, Repr

/-- A row of the manifests table (schema of the authoritative init_db
with the migrated columns merkle, priority, created_at, completed_at,
status). -/
structure ManifestRow where
  file_id : String
  filename : String
  size : Nat
  chunk_size : Nat
  total_chunks : Nat
  merkle : String
  priority : String
  status : String
  created_at : Rat
  completed_at : Option Rat
deriving DecidableEq, Repr

/-- A row of the chunks table (with the migrated columns received_at and
retry_count; chunk_id is an SQLite INTEGER, so it is an Int). -/
structure ChunkRow where
  file_id : String
  chunk_id : Int
  checksum : String
  received : Nat
  received_at : Option Rat
  retry_count : Nat
deriving DecidableEq, Repr

/-- A row of the transfer_stats table created by init_db.  No code path
in app.py ever inserts a row into it; upload_chunk only runs an UPDATE
against it, which silently affects zero rows. -/
structure StatsRow where
  file_id : String
  start_time : Option Rat
  end_time : Option Rat
  total_bytes : Option Int
  chunks_received : Option Nat
  errors : Nat
  avg_speed : Option Rat
deriving DecidableEq, Repr

/-- One entry of the in-memory transfer_stats defaultdict of app.py. -/
structure MemStats where
  start_time : Option Rat
  last_activity : Option Rat
  bytes_received : Nat
  chunks_received : Nat
  errors : Nat
deriving DecidableEq, Repr

/-- The default entry the defaultdict creates on first access. -/
def MemStats.initial : MemStats :=
  { start_time := none, last_activity := none, bytes_received := 0
    chunks_received := 0, errors := 0 }

/-- The whole observable state of the coordinator process: the SQLite
tables, the in-memory stats map, the staged chunk files, the assembled
output files, and the stream of emitted socketio events. -/
structure State where
  manifests : List ManifestRow
  chunks : List ChunkRow
  statsTable : List StatsRow
  memStats : List (String × MemStats)
  staging : List ((String × Int) × Bytes)
  assembledFiles : List (String × Bytes)
  events : List Event
deriving DecidableEq, Repr

/-- SELECT ... FROM manifests WHERE file_id = ? (first matching row). -/
def findManifest (s : State) (fid : String) : Option ManifestRow :=
  s.manifests.find? (fun m => m.file_id == fid)

/-- SELECT ... FROM chunks WHERE file_id = ? AND chunk_id = ?. -/
def findChunk (s : State) (fid : String) (cid : Int) : Option ChunkRow :=
  s.chunks.find? (fun r => r.file_id == fid && r.chunk_id == cid)

/-- SELECT COUNT(*) FROM chunks WHERE file_id = ? AND received = 1. -/
def countReceived (chunks : List ChunkRow) (fid : String) : Nat :=
  (chunks.filter (fun r => r.file_id == fid && r.received == 1)).length

/-- Read of the transfer_stats defaultdict: missing keys yield the default entry. -/
def getMemStats (s : State) (fid : String) : MemStats :=
  (((s.memStats.find? (fun p => p.1 == fid))).map Prod.snd).getD MemStats.initial

/-- Write-back of one entry of the transfer_stats defaultdict. -/
def setMemStats (s : State) (fid : String) (ms : MemStats) : State :=
  { s with memStats := (s.memStats.filter (fun p => p.1 != fid)) ++ [(fid, ms)] }

/-- INSERT OR REPLACE INTO manifests: drop any row with the same file_id,
append the new row (fresh rowid at the end of the table). -/
def insertOrReplaceManifest (l : List ManifestRow) (m : ManifestRow) : List ManifestRow :=
  (l.filter (fun r => r.file_id != m.file_id)) ++ [m]

/-- INSERT OR REPLACE INTO chunks: drop any row with the same
(file_id, chunk_id) key, append the new row. -/
def insertOrReplaceChunk (l : List ChunkRow) (r : ChunkRow) : List ChunkRow :=
  (l.filter (fun q => !(q.file_id == r.file_id && q.chunk_id == r.chunk_id))) ++ [r]

/-- Write a chunk file into the per-file staging area, replacing any
previous file at the same path. -/
def stagingWrite (st : List ((String × Int) × Bytes)) (k : String × Int) (b : Bytes) :
    List ((String × Int) × Bytes) :=
  (st.filter (fun p => p.1 != k)) ++ [(k, b)]

/-- Look up a staged chunk file by (file_id, chunk_id). -/
def stagingLookup (st : List ((String × Int) × Bytes)) (k : String × Int) : Option Bytes :=
  ((st.find? (fun p => p.1 == k))).map Prod.snd

/-- Write an assembled output file, replacing any previous one of the same name. -/
def fileWrite (fs : List (String × Bytes)) (name : String) (b : Bytes) :
    List (String × Bytes) :=
  (fs.filter (fun p => p.1 != name)) ++ [(name, b)]

/-- Look up an assembled output file by name. -/
def fileLookup (fs : List (String × Bytes)) (name : String) : Option Bytes :=
  ((fs.find? (fun p => p.1 == name))).map Prod.snd

/-- One element of the chunks field of the /upload/init request body. -/
structure ChunkMeta where
  chunk_id : Int
  size : Nat
  checksum : String
deriving DecidableEq, Repr

/-- The parsed /upload/init request body (priority already defaulted to
normal by data.get, as in the source). -/
structure InitReq where
  file_id : String
  filename : String
  size : Nat
  chunk_size : Nat
  chunks : List ChunkMeta
  priority : String
deriving DecidableEq, Repr

/-- The chunk row inserted for one manifest entry at init: received = 0,
received_at NULL, retry_count at its column default 0. -/
def initChunkRow (fid : String) (ch : ChunkMeta) : ChunkRow :=
  { file_id := fid, chunk_id := ch.chunk_id, checksum := ch.checksum
    received := 0, received_at := none, retry_count := 0 }

/-- Handler of POST /upload/init (upload_init in app.py).  One SQLite
transaction: INSERT OR REPLACE the manifest row, then INSERT OR REPLACE
every chunk row with received = 0; commit; emit the manifest event;
respond with a plain ok status.  Note that neither the transfer_stats
table nor the in-memory stats map is touched. -/
def uploadInit (now : Rat) (s : State) (req : InitReq) : HttpResp × State :=
  let m : ManifestRow :=
    { file_id := req.file_id, filename := req.filename, size := req.size
      chunk_size := req.chunk_size, total_chunks := req.chunks.length
      merkle := "", priority := req.priority, status := "active"
      created_at := now, completed_at := none }
  let manifests := insertOrReplaceManifest s.manifests m
  let chunks := req.chunks.foldl (fun acc ch => insertOrReplaceChunk acc (initChunkRow req.file_id ch)) s.chunks
  let ev := Event.manifestEv req.file_id req.filename req.size req.chunks.length req.priority
  (⟨200, [("status", JVal.str "ok")]⟩,
   { s with manifests := manifests, chunks := chunks, events := s.events ++ [ev] })

/-- The parsed multipart form of POST /upload/chunk, after the three form
fields were found present and chunk_id parsed as an integer (the earlier
missing-field and int-parse rejections concern requests outside this
record). -/
structure ChunkReq where
  file_id : String
  chunk_id : Int
  checksum : String
  chunk_filename : String
  data : Bytes
deriving DecidableEq, Repr

/-- Python round(x, 2) is not modelled bit-exactly; the progress value is
kept as the exact rational (received / total) * 100.  No claim depends on
the rounded value, only on the presence of the field. -/
def progressVal (received total : Nat) : Rat :=
  (received : Rat) * 100 / (total : Rat)

/-- The duplicate branch of upload_chunk: the chunk row already has
received = 1, so the handler only re-counts received chunks and responds;
no write, no stats update, no event. -/
def duplicateResp (s : State) (req : ChunkReq) (manifest : ManifestRow) : HttpResp × State :=
  (⟨200, [("status", JVal.str "ok"),
          ("received", JVal.int (countReceived s.chunks req.file_id : Int)),
          ("total", JVal.int (manifest.total_chunks : Int)),
          ("duplicate", JVal.bool true)]⟩, s)

/-- The fresh-chunk tail of upload_chunk, entered once the row exists with
received = 0: write the file to staging, run the (uncommitted) UPDATE of
the chunk row, mutate the in-memory stats, re-count received chunks, and
then read start_time of the in-memory stats entry.  When that is None
(which upload_init never sets) the expression start_time.timestamp()
raises AttributeError: the generic except-handler answers 500 and closing
the connection rolls the UPDATE back, while the staged file and the
in-memory mutations persist.  Otherwise the transaction commits, the
chunk event is emitted, transfer_complete is emitted when the count
reaches total_chunks, and the five-field success body is returned. -/
def freshChunkWrite (tStart tEnd now : Rat) (s : State) (req : ChunkReq)
    (manifest : ManifestRow) : HttpResp × State :=
  let s1 := { s with staging := stagingWrite s.staging (req.file_id, req.chunk_id) req.data }
  let newChunks := s1.chunks.map (fun r =>
    if r.file_id = req.file_id ∧ r.chunk_id = req.chunk_id then
      { r with received := 1, received_at := some now, retry_count := r.retry_count + 1 }
    else r)
  let ms0 := getMemStats s1 req.file_id
  let ms := { ms0 with last_activity := some now
                       bytes_received := ms0.bytes_received + req.data.length
                       chunks_received := ms0.chunks_received + 1 }
  let s2 := setMemStats s1 req.file_id ms
  let receivedCount := countReceived newChunks req.file_id
  match ms.start_time with
  | none =>
      (⟨500, [("error", JVal.str "Internal server error")]⟩, s2)
  | some st =>
      let elapsed := tEnd - st
      let avgSpeed : Rat := if 0 < elapsed then (ms.bytes_received : Rat) / elapsed else 0
      let statsTable := s2.statsTable.map (fun r =>
        if r.file_id = req.file_id then
          { r with chunks_received := some receivedCount, avg_speed := some avgSpeed
                   errors := ms.errors }
        else r)
      let chunkTime := tEnd - tStart
      let chunkSpeed : Rat := if 0 < chunkTime then (req.data.length : Rat) / chunkTime else 0
      let ev := Event.chunkEv req.file_id req.chunk_id receivedCount manifest.total_chunks
        manifest.filename req.data.length chunkSpeed
      let s3 := { s2 with chunks := newChunks, statsTable := statsTable
                          events := s2.events ++ [ev] }
      let s4 := if receivedCount = manifest.total_chunks
                then { s3 with events := s3.events ++ [Event.transferComplete req.file_id manifest.filename] }
                else s3
      (⟨200, [("status", JVal.str "ok"),
              ("received", JVal.int (receivedCount : Int)),
              ("total", JVal.int (manifest.total_chunks : Int)),
              ("speed", JVal.num chunkSpeed),
              ("progress", JVal.num (progressVal receivedCount manifest.total_chunks))]⟩, s4)

/-- Handler of POST /upload/chunk (upload_chunk in app.py), for requests
whose form fields are present and parsed.  The validation order, the
checksum comparison against the checksum form field, the manifest and
chunk-row lookups, the duplicate shortcut and the fresh-chunk tail follow
the source line by line. -/
def uploadChunk (sha : Bytes → String) (tStart tEnd now : Rat) (s : State)
    (req : ChunkReq) : HttpResp × State :=
  if req.chunk_filename = "" then
    (⟨400, [("error", JVal.str "Empty chunk file")]⟩, s)
  else if req.data.length = 0 then
    (⟨400, [("error", JVal.str "Empty chunk data")]⟩, s)
  else if sha req.data ≠ req.checksum then
    let ms := getMemStats s req.file_id
    let s1 := setMemStats s req.file_id { ms with errors := ms.errors + 1 }
    let s2 := { s1 with events := s1.events ++
      [Event.errorEv req.file_id req.chunk_id ("Checksum mismatch for chunk " ++ toString req.chunk_id)] }
    (⟨400, [("error", JVal.str "Checksum verification failed"),
            ("expected", JVal.str req.checksum),
            ("received", JVal.str (sha req.data))]⟩, s2)
  else
    match findManifest s req.file_id with
    | none => (⟨404, [("error", JVal.str "Unknown file_id")]⟩, s)
    | some manifest =>
      if manifest.status ≠ "active" then
        (⟨409, [("error", JVal.str ("Transfer not active (status: " ++ manifest.status ++ ")"))]⟩, s)
      else
        match findChunk s req.file_id req.chunk_id with
        | none => (⟨400, [("error", JVal.str "Invalid chunk_id for this file")]⟩, s)
        | some row =>
          if row.received = 1 then duplicateResp s req manifest
          else freshChunkWrite tStart tEnd now s req manifest

/-- The chunk ids the missing endpoint reports: SELECT chunk_id FROM
chunks WHERE file_id = ? AND received = 0, with no ORDER BY, so the rows
come back in stored (rowid) order. -/
def missingOf (s : State) (fid : String) : List Int :=
  ((s.chunks.filter (fun r => r.file_id == fid && r.received == 0)).map (fun r => r.chunk_id))

/-- Handler of GET /upload/missing/(file_id) (missing in app.py).  There
is no manifest existence check: an unknown file_id simply yields an empty
list with HTTP 200. -/
def missingHandler (s : State) (fid : String) : HttpResp :=
  ⟨200, [("missing", JVal.intList (missingOf s fid))]⟩

/-- The assembly loop of assemble in app.py: for i in range(total), if
the staged file of chunk i is absent stop and report i, else append its
bytes to the output stream.  Returns the bytes written so far together
with the first missing index, if any.  The counter n is the number of
indices left to visit, i the next index. -/
def assembleFrom (st : List ((String × Int) × Bytes)) (fid : String) :
    Nat → Nat → Bytes × Option Nat
  | _, 0 => ([], none)
  | i, n + 1 =>
    match stagingLookup st (fid, (i : Int)) with
    | none => ([], some i)
    | some b =>
      let r := assembleFrom st fid (i + 1) n
      (b ++ r.1, r.2)

/-- Handler of POST /assemble/(file_id) (assemble in app.py).  Unknown
file_id is 404.  Otherwise open(out_path, wb) creates or truncates the
output file before the loop runs, so whatever the loop wrote is left on
disk even when a chunk is found missing and the handler answers 400.
On success the assembled event is emitted and the path returned; the
manifest row: its status and completed_at are never touched. -/
def assemble (s : State) (fid : String) : HttpResp × State :=
  match findManifest s fid with
  | none => (⟨404, [("error", JVal.str "unknown file id")]⟩, s)
  | some m =>
    let outName := "assembled_" ++ m.filename
    let r := assembleFrom s.staging fid 0 m.total_chunks
    let s1 := { s with assembledFiles := fileWrite s.assembledFiles outName r.1 }
    match r.2 with
    | some i => (⟨400, [("error", JVal.str ("missing chunk " ++ toString i))]⟩, s1)
    | none =>
      let s2 := { s1 with events := s1.events ++ [Event.assembledEv fid m.filename] }
      (⟨200, [("status", JVal.str "ok"), ("path", JVal.str ("uploads/" ++ outName))]⟩, s2)

/-- Handler of GET /download/(file_id) (download_file in app.py): 404 if
the manifest is unknown, 409 unless status is exactly completed, 404 if
the assembled file is gone, otherwise the file is served (modelled as a
200 naming the served file). -/
def downloadFile (s : State) (fid : String) : HttpResp :=
  match findManifest s fid with
  | none => ⟨404, [("error", JVal.str "File not found")]⟩
  | some m =>
    if m.status ≠ "completed" then
      ⟨409, [("error", JVal.str "File not ready for download"), ("status", JVal.str m.status)]⟩
    else
      match fileLookup s.assembledFiles ("assembled_" ++ m.filename) with
      | none => ⟨404, [("error", JVal.str "Assembled file not found")]⟩
      | some _ => ⟨200, [("file", JVal.str ("assembled_" ++ m.filename))]⟩

/-! Sender side: src/sender/send_file.py. -/

/-- MIN_CHUNK_SIZE of send_file.py: 64 KiB. -/
def MIN_CHUNK_SIZE : Nat := 64 * 1024

/-- MAX_CHUNK_SIZE of send_file.py: 10 MiB. -/
def MAX_CHUNK_SIZE : Nat := 10 * 1024 * 1024

/-- adaptive_chunk_size of send_file.py.  The thresholds 0.95 and 0.8 on
the success rate and 1 MiB/s and 100 KiB/s on the average speed are exact
rationals.  The float-and-truncate arithmetic int(min(current * 1.2,
MAX)) is modelled exactly over the rationals and then folded into Nat:
for an integer current, the real value min(current * 12/10, MAX)
truncates to min(current * 12 / 10, MAX) under Nat division, and likewise
int(max(current * 0.7, MIN)) = max(current * 7 / 10, MIN).  (Binary
floating point can differ from the exact rational by one unit after
truncation for some inputs; every concrete input used below was checked
to agree.) -/
def adaptiveChunkSize (current : Nat) (successRate avgSpeed : Rat) : Nat :=
  if successRate > mkRat 95 100 ∧ avgSpeed > (1048576 : Rat) then
    min (current * 12 / 10) MAX_CHUNK_SIZE
  else if successRate < mkRat 8 10 ∨ avgSpeed < (102400 : Rat) then
    max (current * 7 / 10) MIN_CHUNK_SIZE
  else current

/-- The re-split test in the main loop of send_file.py:
abs(new_chunk_size - args.chunk_size) > args.chunk_size * 0.5.  Both
operands are integers there (args.chunk_size is the initial command-line
chunk size, never reassigned), and multiplying by 2 removes the exact
float 0.5. -/
def codeResplitCond (newSize argsChunkSize : Nat) : Bool :=
  decide (argsChunkSize < 2 * (Int.natAbs ((newSize : Int) - (argsChunkSize : Int))))

/-- Modelled from the spec: the spec (section 4.6) re-splits exactly when
the new size differs from the size currently declared to the coordinator
by more than half that declared size.  Kept for comparison with
codeResplitCond, which uses the initial command-line size instead. -/
def specResplitCond (newSize declaredSize : Nat) : Bool :=
  decide (declaredSize < 2 * (Int.natAbs ((newSize : Int) - (declaredSize : Int))))

/-- The sender-side quantities the adaptive step reads and writes.
argsChunkSize is the command-line --chunk-size value (never reassigned in
the source); currentChunkSize is the local adapted size; the field
declaredChunkSize is bookkeeping for the statements below: the chunk_size
of the most recent manifest POSTed to the coordinator (the source keeps
no such variable, which is the point of claim C6). -/
structure SenderState where
  argsChunkSize : Nat
  currentChunkSize : Nat
  declaredChunkSize : Nat
deriving DecidableEq, Repr

/-- The adaptive-sizing head of one main-loop iteration of send_file.py:
when adaptive mode is on and more than one chunk is missing, compute the
adapted size; if it changed, adopt it, and when the re-split test against
the initial command-line size fires, re-split the file and re-register
the manifest (so the declared size becomes the new size).  Returns the
new state and whether a re-registration happened. -/
def senderAdapt (adaptive : Bool) (missingLen : Nat) (successRate avgSpeed : Rat)
    (st : SenderState) : SenderState × Bool :=
  if adaptive = true ∧ 1 < missingLen then
    let n := adaptiveChunkSize st.currentChunkSize successRate avgSpeed
    if n ≠ st.currentChunkSize then
      if codeResplitCond n st.argsChunkSize then
        ({ st with currentChunkSize := n, declaredChunkSize := n }, true)
      else
        ({ st with currentChunkSize := n }, false)
    else (st, false)
  else (st, false)

/-- The byte offset the sender seeks to before reading a chunk:
chunk_start = chunk_id * current_chunk_size in the inner upload loop. -/
def senderChunkStart (chunk_id currentChunkSize : Nat) : Nat :=
  chunk_id * currentChunkSize

/-- The bytes the sender reads and uploads for one chunk: seek to the
chunk start, read up to current_chunk_size bytes. -/
def senderChunkData (file : Bytes) (chunk_id currentChunkSize : Nat) : Bytes :=
  (file.drop (senderChunkStart chunk_id currentChunkSize)).take currentChunkSize

/-- What the sender main loop does next after fetching the missing list. -/
inductive SenderAction where
  | assembleNow
  | uploadMissing
deriving DecidableEq, Repr

/-- The loop-exit test of the sender main loop (if not missing: break,
after which the sender POSTs /assemble). -/
def senderLoopStep (missing : List Int) : SenderAction :=
  if missing.isEmpty then SenderAction.assembleNow else SenderAction.uploadMissing

/-! Concrete fixtures used by counterexamples and witnesses. -/

/-- A concrete stand-in for the opaque hash parameter, used only to
instantiate counterexamples and witnesses: the printed byte list.  It is
injective, which is all the instantiations rely on. -/
def demoHash (b : Bytes) : String := toString b

/-- The coordinator state with empty tables, staging and event log. -/
def emptyState : State :=
  { manifests := [], chunks := [], statsTable := [], memStats := []
    staging := [], assembledFiles := [], events := [] }

/-- C1 fixture: an active one-chunk transfer whose single chunk is staged. -/
def stateC1 : State :=
  { emptyState with
    manifests := [{ file_id := "f1", filename := "a.bin", size := 1, chunk_size := 1
                    total_chunks := 1, merkle := "", priority := "normal"
                    status := "active", created_at := 0, completed_at := none }]
    chunks := [{ file_id := "f1", chunk_id := 0, checksum := "c0", received := 1
                 received_at := some 0, retry_count := 1 }]
    staging := [(("f1", 0), [7])] }

/-- C2 fixture: the /upload/init request of a one-chunk transfer. -/
def reqInitC2 : InitReq :=
  { file_id := "f2", filename := "b.bin", size := 3, chunk_size := 3
    chunks := [{ chunk_id := 0, size := 3, checksum := demoHash [1, 2, 3] }]
    priority := "normal" }

/-- C2 fixture: the state right after that init on an empty coordinator. -/
def stateC2 : State := (uploadInit 0 emptyState reqInitC2).2

/-- C2 fixture: the matching first chunk upload. -/
def reqChunkC2 : ChunkReq :=
  { file_id := "f2", chunk_id := 0, checksum := demoHash [1, 2, 3]
    chunk_filename := "chunk", data := [1, 2, 3] }

/-- C3 fixture: a two-chunk transfer whose chunk 0 is already received. -/
def stateC3 : State :=
  { emptyState with
    manifests := [{ file_id := "f3", filename := "c.bin", size := 2, chunk_size := 1
                    total_chunks := 2, merkle := "", priority := "normal"
                    status := "active", created_at := 0, completed_at := none }]
    chunks := [{ file_id := "f3", chunk_id := 0, checksum := demoHash [5], received := 1
                 received_at := some 0, retry_count := 1 },
               { file_id := "f3", chunk_id := 1, checksum := demoHash [6], received := 0
                 received_at := none, retry_count := 0 }]
    staging := [(("f3", 0), [5])] }

/-- C3 fixture: a duplicate re-upload of chunk 0. -/
def reqC3 : ChunkReq :=
  { file_id := "f3", chunk_id := 0, checksum := demoHash [5]
    chunk_filename := "chunk", data := [5] }

/-- C3 witness fixture: a fresh one-chunk transfer whose in-memory stats
entry has start_time set, so the fresh-path success response is reached. -/
def stateC3b : State :=
  { emptyState with
    manifests := [{ file_id := "f3b", filename := "cb.bin", size := 1, chunk_size := 1
                    total_chunks := 1, merkle := "", priority := "normal"
                    status := "active", created_at := 0, completed_at := none }]
    chunks := [{ file_id := "f3b", chunk_id := 0, checksum := demoHash [4], received := 0
                 received_at := none, retry_count := 0 }]
    memStats := [("f3b", { start_time := some 0, last_activity := none
                           bytes_received := 0, chunks_received := 0, errors := 0 })] }

/-- C3 witness fixture: the fresh upload of that chunk. -/
def reqC3b : ChunkReq :=
  { file_id := "f3b", chunk_id := 0, checksum := demoHash [4]
    chunk_filename := "chunk", data := [4] }

/-- C4 fixture: a one-chunk transfer whose chunk is already received. -/
def stateC4 : State :=
  { emptyState with
    manifests := [{ file_id := "f4", filename := "d.bin", size := 1, chunk_size := 1
                    total_chunks := 1, merkle := "", priority := "normal"
                    status := "active", created_at := 0, completed_at := none }]
    chunks := [{ file_id := "f4", chunk_id := 0, checksum := "k4", received := 1
                 received_at := some 0, retry_count := 1 }] }

/-- C4 fixture: the same manifest posted a second time. -/
def reqInitC4 : InitReq :=
  { file_id := "f4", filename := "d.bin", size := 1, chunk_size := 1
    chunks := [{ chunk_id := 0, size := 1, checksum := "k4" }]
    priority := "normal" }

/-- C5 fixture: a one-chunk transfer whose chunk row carries a declared
checksum that nothing else matches; the stats entry has start_time set so
the fresh path reaches its success response. -/
def stateC5 : State :=
  { emptyState with
    manifests := [{ file_id := "f5", filename := "e.bin", size := 2, chunk_size := 2
                    total_chunks := 1, merkle := "", priority := "normal"
                    status := "active", created_at := 0, completed_at := none }]
    chunks := [{ file_id := "f5", chunk_id := 0, checksum := "declared-c5", received := 0
                 received_at := none, retry_count := 0 }]
    memStats := [("f5", { start_time := some 0, last_activity := none
                          bytes_received := 0, chunks_received := 0, errors := 0 })] }

/-- C5 fixture: an upload whose bytes hash to the form checksum but not to
the declared one. -/
def reqC5 : ChunkReq :=
  { file_id := "f5", chunk_id := 0, checksum := demoHash [9, 8]
    chunk_filename := "chunk", data := [9, 8] }

/-- C6 fixture: a fresh sender at the default 256 KiB, nothing re-registered. -/
def senderStA : SenderState :=
  { argsChunkSize := 262144, currentChunkSize := 262144, declaredChunkSize := 262144 }

/-- C6 fixture: a sender that started at 256 KiB and already re-registered
at 452983 bytes (reachable after three growth adaptations under sustained
success rate 1 and 2 MiB/s: 262144, 314572, 377486, 452983, the last one
re-registering; the float computations agree with the exact model on each
step). -/
def senderStB : SenderState :=
  { argsChunkSize := 262144, currentChunkSize := 452983, declaredChunkSize := 452983 }

/-- C7 fixture: a two-chunk transfer with only chunk 0 staged. -/
def stateC7 : State :=
  { emptyState with
    manifests := [{ file_id := "f7", filename := "g.bin", size := 4, chunk_size := 2
                    total_chunks := 2, merkle := "", priority := "normal"
                    status := "active", created_at := 0, completed_at := none }]
    chunks := [{ file_id := "f7", chunk_id := 0, checksum := "c70", received := 1
                 received_at := some 0, retry_count := 1 },
               { file_id := "f7", chunk_id := 1, checksum := "c71", received := 0
                 received_at := none, retry_count := 0 }]
    staging := [(("f7", 0), [9, 9])] }

/-- C8 witness fixture: a three-chunk transfer with chunks 0 and 2
received, used for a duplicate re-upload of chunk 2. -/
def stateC8 : State :=
  { emptyState with
    manifests := [{ file_id := "f8", filename := "h.bin", size := 3, chunk_size := 1
                    total_chunks := 3, merkle := "", priority := "high"
                    status := "active", created_at := 0, completed_at := none }]
    chunks := [{ file_id := "f8", chunk_id := 0, checksum := demoHash [1], received := 1
                 received_at := some 0, retry_count := 1 },
               { file_id := "f8", chunk_id := 1, checksum := demoHash [2], received := 0
                 received_at := none, retry_count := 0 },
               { file_id := "f8", chunk_id := 2, checksum := demoHash [3], received := 1
                 received_at := some 0, retry_count := 1 }]
    staging := [(("f8", 0), [1]), (("f8", 2), [3])] }

/-- C8 witness fixture: the duplicate re-upload of chunk 2. -/
def reqC8 : ChunkReq :=
  { file_id := "f8", chunk_id := 2, checksum := demoHash [3]
    chunk_filename := "chunk", data := [3] }

/-- C9 fixture: a manifest listing its two chunks out of order. -/
def reqInitC9 : InitReq :=
  { file_id := "f9", filename := "i.bin", size := 2, chunk_size := 1
    chunks := [{ chunk_id := 1, size := 1, checksum := "x9" },
               { chunk_id := 0, size := 1, checksum := "y9" }]
    priority := "normal" }

/-- C9 fixture: the state after that out-of-order init. -/
def stateC9 : State := (uploadInit 0 emptyState reqInitC9).2

/-- C9 witness fixture: a transfer whose chunk rows are stored in
ascending chunk_id order, chunk 1 received. -/
def stateC9b : State :=
  { emptyState with
    chunks := [{ file_id := "f9b", chunk_id := 0, checksum := "a", received := 0
                 received_at := none, retry_count := 0 },
               { file_id := "f9b", chunk_id := 1, checksum := "b", received := 1
                 received_at := some 0, retry_count := 1 },
               { file_id := "f9b", chunk_id := 2, checksum := "c", received := 0
                 received_at := none, retry_count := 0 }] }

/-- C10 witness fixture: a coordinator that knows one transfer, queried
below for a different, never-registered file_id. -/
def stateC10 : State :=
  { emptyState with
    chunks := [{ file_id := "other", chunk_id := 0, checksum := "z", received := 0
                 received_at := none, retry_count := 0 }] }

/-- Replace the declared checksum stored in one chunk row, leaving every
other part of the state alone.  Used to state that the Ingestor never
consults the stored checksum. -/
def setChunkChecksum (s : State) (fid : String) (cid : Int) (c : String) : State :=
  { s with chunks := s.chunks.map (fun r =>
      if r.file_id = fid ∧ r.chunk_id = cid then { r with checksum := c } else r) }

/-! Theorems. -/

/-- Helper: a chunk upload that passes the field, checksum, manifest and
chunk-row checks reduces to the duplicate branch or to the fresh-chunk
tail according to the received flag of its row. -/
theorem uploadChunk_valid_eq (sha : Bytes → String) (tStart tEnd now : Rat)
    (s : State) (req : ChunkReq) (manifest : ManifestRow) (row : ChunkRow)
    (hfn : ¬ req.chunk_filename = "") (hd : ¬ req.data.length = 0)
    (hsum : sha req.data = req.checksum)
    (hm : findManifest s req.file_id = some manifest)
    (hact : manifest.status = "active")
    (hc : findChunk s req.file_id req.chunk_id = some row) :
    uploadChunk sha tStart tEnd now s req =
      if row.received = 1 then duplicateResp s req manifest
      else freshChunkWrite tStart tEnd now s req manifest := by
  unfold uploadChunk
  rw [if_neg hfn, if_neg hd, if_neg (not_not_intro hsum)]
  split
  · next h => rw [hm] at h; cases h
  · next mf h =>
      rw [hm] at h
      injection h with h
      subst h
      rw [if_neg (not_not_intro hact)]
      split
      · next h2 => rw [hc] at h2; cases h2
      · next row2 h2 =>
          rw [hc] at h2
          injection h2 with h2
          subst h2
          rfl

/-- C1: the claim (with the spec) mandates that a successful assemble set
the manifest status to completed, record completed_at and thereby let a
later /download succeed; the source never writes the status.  Evaluated
at a concrete completed upload: assemble answers ok with the output path
and emits the assembled event, yet the manifest stays active with
completed_at unset, and /download of the same file_id is rejected 409. -/
theorem C1_assemble_leaves_status_active :
    (assemble stateC1 "f1").1 =
      ⟨200, [("status", JVal.str "ok"), ("path", JVal.str "uploads/assembled_a.bin")]⟩ ∧
    (assemble stateC1 "f1").2.events = [Event.assembledEv "f1" "a.bin"] ∧
    fileLookup (assemble stateC1 "f1").2.assembledFiles "assembled_a.bin" = some [7] ∧
    ((findManifest (assemble stateC1 "f1").2 "f1").map (fun m => m.status)) = some "active" ∧
    ((findManifest (assemble stateC1 "f1").2 "f1").map (fun m => m.completed_at)) = some none ∧
    downloadFile (assemble stateC1 "f1").2 "f1" =
      ⟨409, [("error", JVal.str "File not ready for download"), ("status", JVal.str "active")]⟩ := by
  decide

/-- C2: the claim says /upload/init also creates a TransferStats record
with start_time set to now; the source inserts the manifest and chunk
rows in one transaction but never touches the transfer_stats table or the
in-memory stats map.  Evaluated at a concrete init on an empty
coordinator: the manifest and chunk rows exist, the stats table is still
empty and the in-memory start_time is None, so the very first valid chunk
upload crashes (HTTP 500) at start_time.timestamp(), its database update
rolled back (received stays 0) while the staged file persists. -/
theorem C2_init_skips_transfer_stats :
    (findManifest stateC2 "f2").map (fun m => m.status) = some "active" ∧
    (findChunk stateC2 "f2" 0).map (fun r => r.received) = some 0 ∧
    stateC2.statsTable = [] ∧
    (getMemStats stateC2 "f2").start_time = none ∧
    (uploadChunk demoHash 0 1 2 stateC2 reqChunkC2).1 =
      ⟨500, [("error", JVal.str "Internal server error")]⟩ ∧
    (findChunk (uploadChunk demoHash 0 1 2 stateC2 reqChunkC2).2 "f2" 0).map
      (fun r => r.received) = some 0 ∧
    stagingLookup (uploadChunk demoHash 0 1 2 stateC2 reqChunkC2).2.staging ("f2", 0) =
      some [1, 2, 3] := by
  decide

/-- C3 counterexample: a duplicate re-upload of an already received chunk
answers 200 with duplicate=true, but its body carries neither a speed nor
a progress field, refuting the claim that the duplicate response still
includes the other fields of the success response. -/
theorem C3_counterexample :
    (uploadChunk demoHash 0 1 2 stateC3 reqC3).1.code = 200 ∧
    (uploadChunk demoHash 0 1 2 stateC3 reqC3).1.body.lookup "status" = some (JVal.str "ok") ∧
    (uploadChunk demoHash 0 1 2 stateC3 reqC3).1.body.lookup "duplicate" = some (JVal.bool true) ∧
    (uploadChunk demoHash 0 1 2 stateC3 reqC3).1.body.lookup "received" = some (JVal.int 1) ∧
    (uploadChunk demoHash 0 1 2 stateC3 reqC3).1.body.lookup "total" = some (JVal.int 2) ∧
    (uploadChunk demoHash 0 1 2 stateC3 reqC3).1.body.lookup "speed" = none ∧
    (uploadChunk demoHash 0 1 2 stateC3 reqC3).1.body.lookup "progress" = none := by
  decide

/-- C4 counterexample: posting the same manifest a second time resets the
already received chunk row back to received 0 and answers with the plain
ok status, not a resumed status with a count, refuting both halves of the
claim. -/
theorem C4_counterexample :
    (findChunk stateC4 "f4" 0).map (fun r => r.received) = some 1 ∧
    (uploadInit 5 stateC4 reqInitC4).1.body = [("status", JVal.str "ok")] ∧
    (findChunk (uploadInit 5 stateC4 reqInitC4).2 "f4" 0).map (fun r => r.received) = some 0 := by
  decide

/-- C5 counterexample: a chunk whose bytes hash to the checksum form
field of the request is accepted as a non-duplicate success and staged,
even though the checksum declared for that chunk at manifest init is a
different string: verification is against the form field only, refuting
the claim. -/
theorem C5_counterexample :
    demoHash [9, 8] ≠ "declared-c5" ∧
    (findChunk stateC5 "f5" 0).map (fun r => r.checksum) = some "declared-c5" ∧
    (uploadChunk demoHash 0 1 2 stateC5 reqC5).1.code = 200 ∧
    (uploadChunk demoHash 0 1 2 stateC5 reqC5).1.body.lookup "status" = some (JVal.str "ok") ∧
    (uploadChunk demoHash 0 1 2 stateC5 reqC5).1.body.lookup "duplicate" = none ∧
    stagingLookup (uploadChunk demoHash 0 1 2 stateC5 reqC5).2.staging ("f5", 0) =
      some [9, 8] := by
  decide

/-- C6 counterexample: with the default initial size 262144, one growth
adaptation moves the local size to 314572 without re-registering (the
source compares against the initial command-line size), after which the
next upload of chunk 1 reads bytes from offset 314572 although the
chunking declared to the coordinator places chunk 1 at offset 262144 —
refuting the claim that byte ranges follow the declared chunking.  And
from the reachable re-registered state at 452983, the next adaptation to
543579 re-splits under the source condition although it differs from the
declared size by less than half of it, refuting the stated re-split
trigger. -/
theorem C6_counterexample :
    senderAdapt true 4 1 2097152 senderStA =
      ({ argsChunkSize := 262144, currentChunkSize := 314572, declaredChunkSize := 262144 }, false) ∧
    senderChunkStart 1 314572 = 314572 ∧
    senderChunkStart 1 senderStA.declaredChunkSize = 262144 ∧
    (314572 : Nat) ≠ 262144 ∧
    adaptiveChunkSize senderStB.currentChunkSize 1 2097152 = 543579 ∧
    (senderAdapt true 4 1 2097152 senderStB).2 = true ∧
    specResplitCond 543579 senderStB.declaredChunkSize = false := by
  decide

/-- C7 counterexample: with chunk 1 never staged, assemble answers a 400
naming the first missing index and leaves the manifest active, but the
output file holding the bytes of chunk 0 remains on disk, refuting the
claim that no partial output artifact is left. -/
theorem C7_counterexample :
    (assemble stateC7 "f7").1 = ⟨400, [("error", JVal.str "missing chunk 1")]⟩ ∧
    fileLookup (assemble stateC7 "f7").2.assembledFiles "assembled_g.bin" = some [9, 9] ∧
    ((findManifest (assemble stateC7 "f7").2 "f7").map (fun m => m.status)) = some "active" ∧
    (assemble stateC7 "f7").2.events = [] := by
  decide

/-- C8: re-uploading a chunk whose row already has received 1 is a strict
no-op: the handler returns exactly the original state (so no staging
write, no statistics change and no re-emitted transfer_complete event)
together with a 200 response carrying duplicate=true and the current
received count. -/
theorem C8_duplicate_upload_is_noop (sha : Bytes → String) (tStart tEnd now : Rat)
    (s : State) (req : ChunkReq) (manifest : ManifestRow) (row : ChunkRow)
    (hfn : ¬ req.chunk_filename = "") (hd : ¬ req.data.length = 0)
    (hsum : sha req.data = req.checksum)
    (hm : findManifest s req.file_id = some manifest)
    (hact : manifest.status = "active")
    (hc : findChunk s req.file_id req.chunk_id = some row)
    (hrec : row.received = 1) :
    uploadChunk sha tStart tEnd now s req =
      (⟨200, [("status", JVal.str "ok"),
              ("received", JVal.int (countReceived s.chunks req.file_id : Int)),
              ("total", JVal.int (manifest.total_chunks : Int)),
              ("duplicate", JVal.bool true)]⟩, s) := by
  rw [uploadChunk_valid_eq sha tStart tEnd now s req manifest row hfn hd hsum hm hact hc,
    if_pos hrec]
  rfl

/-- C8 witness: the duplicate re-upload of chunk 2 of the concrete f8
transfer leaves the state untouched and answers duplicate=true with the
current count 2 of 3. -/
theorem C8_duplicate_upload_is_noop_witness :
    uploadChunk demoHash 0 1 2 stateC8 reqC8 =
      (⟨200, [("status", JVal.str "ok"), ("received", JVal.int 2),
              ("total", JVal.int 3), ("duplicate", JVal.bool true)]⟩, stateC8) := by
  rw [C8_duplicate_upload_is_noop demoHash 0 1 2 stateC8 reqC8
    { file_id := "f8", filename := "h.bin", size := 3, chunk_size := 1
      total_chunks := 3, merkle := "", priority := "high"
      status := "active", created_at := 0, completed_at := none }
    { file_id := "f8", chunk_id := 2, checksum := demoHash [3], received := 1
      received_at := some 0, retry_count := 1 }
    (by decide) (by decide) (by decide) (by decide) (by decide) (by decide) (by decide)]
  decide

/-- C10: querying /upload/missing for a file_id with no chunk rows (in
particular a never-registered one) yields HTTP 200 with an empty missing
list, and the sender main loop, seeing the empty list, exits the upload
loop and proceeds to request assembly. -/
theorem C10_unknown_file_missing_empty (s : State) (fid : String)
    (h : ∀ r ∈ s.chunks, r.file_id ≠ fid) :
    missingOf s fid = [] ∧
    missingHandler s fid = ⟨200, [("missing", JVal.intList [])]⟩ ∧
    senderLoopStep (missingOf s fid) = SenderAction.assembleNow := by
  have hnil : missingOf s fid = [] := by
    unfold missingOf
    have hf : s.chunks.filter (fun r => r.file_id == fid && r.received == 0) = [] := by
      rw [List.filter_eq_nil_iff]
      intro r hr
      simp [h r hr]
    rw [hf]
    rfl
  refine ⟨hnil, ?_, ?_⟩
  · unfold missingHandler
    rw [hnil]
  · rw [hnil]
    rfl

/-- C10 witness: a coordinator that only knows the transfer named other
answers an empty missing list for the file_id nope, and the sender then
moves on to assembly. -/
theorem C10_unknown_file_missing_empty_witness :
    missingOf stateC10 "nope" = [] ∧
    missingHandler stateC10 "nope" = ⟨200, [("missing", JVal.intList [])]⟩ ∧
    senderLoopStep (missingOf stateC10 "nope") = SenderAction.assembleNow :=
  C10_unknown_file_missing_empty stateC10 "nope" (by decide)

/-- C9 counterexample: registering a manifest that lists its chunks out
of order makes /upload/missing return the chunk ids in that stored order,
here the non-ascending list 1, 0 — the handler applies no ORDER BY and no
sort. -/
theorem C9_counterexample :
    missingHandler stateC9 "f9" = ⟨200, [("missing", JVal.intList [1, 0])]⟩ ∧
    ¬ List.Sorted (· ≤ ·) ([1, 0] : List Int) := by
  refine ⟨by decide, ?_⟩
  simp [List.Sorted, List.pairwise_cons]

/-- Helper: whatever happens after the fresh-chunk tail runs (crash or
commit), the uploaded bytes have been written to staging. -/
theorem freshChunkWrite_staging (tStart tEnd now : Rat) (s : State) (req : ChunkReq)
    (manifest : ManifestRow) :
    (freshChunkWrite tStart tEnd now s req manifest).2.staging =
      stagingWrite s.staging (req.file_id, req.chunk_id) req.data := by
  unfold freshChunkWrite
  dsimp only
  split
  · rfl
  · split_ifs <;> rfl

/-- Helper: when the in-memory stats entry of the file has start_time
set, the fresh-chunk tail reaches its success response, whose body is the
five-field ok object. -/
theorem freshChunkWrite_success_resp (tStart tEnd now : Rat) (s : State) (req : ChunkReq)
    (manifest : ManifestRow) (st0 : Rat)
    (hst : (getMemStats s req.file_id).start_time = some st0) :
    ∃ n sp pg,
      (freshChunkWrite tStart tEnd now s req manifest).1 =
        ⟨200, [("status", JVal.str "ok"), ("received", JVal.int n),
               ("total", JVal.int (manifest.total_chunks : Int)),
               ("speed", JVal.num sp), ("progress", JVal.num pg)]⟩ := by
  unfold freshChunkWrite
  dsimp only
  split
  · next heq =>
      exfalso
      have heq' : (getMemStats s req.file_id).start_time = none := heq
      rw [hst] at heq'
      cases heq'
  · next st1 heq =>
      exact ⟨_, _, _, rfl⟩

/-- C3 corrected: under the acceptance conditions of the claim, a
duplicate upload answers 200 with exactly the four fields status,
received, total and duplicate (no speed, no progress), while a fresh
upload reaches the five-field success body status, received, total,
speed, progress only via the fresh tail, which requires the in-memory
stats start_time of the transfer to be set. -/
theorem C3_upload_response_fields (sha : Bytes → String) (tStart tEnd now : Rat)
    (s : State) (req : ChunkReq) (manifest : ManifestRow) (row : ChunkRow)
    (hfn : ¬ req.chunk_filename = "") (hd : ¬ req.data.length = 0)
    (hsum : sha req.data = req.checksum)
    (hm : findManifest s req.file_id = some manifest)
    (hact : manifest.status = "active")
    (hc : findChunk s req.file_id req.chunk_id = some row) :
    (row.received = 1 →
      (uploadChunk sha tStart tEnd now s req).1 =
        ⟨200, [("status", JVal.str "ok"),
               ("received", JVal.int (countReceived s.chunks req.file_id : Int)),
               ("total", JVal.int (manifest.total_chunks : Int)),
               ("duplicate", JVal.bool true)]⟩) ∧
    (¬ row.received = 1 → ∀ st0, (getMemStats s req.file_id).start_time = some st0 →
      ∃ n sp pg,
        (uploadChunk sha tStart tEnd now s req).1 =
          ⟨200, [("status", JVal.str "ok"), ("received", JVal.int n),
                 ("total", JVal.int (manifest.total_chunks : Int)),
                 ("speed", JVal.num sp), ("progress", JVal.num pg)]⟩) := by
  constructor
  · intro hrec
    rw [uploadChunk_valid_eq sha tStart tEnd now s req manifest row hfn hd hsum hm hact hc,
      if_pos hrec]
    rfl
  · intro hrec st0 hst
    rw [uploadChunk_valid_eq sha tStart tEnd now s req manifest row hfn hd hsum hm hact hc,
      if_neg hrec]
    exact freshChunkWrite_success_resp tStart tEnd now s req manifest st0 hst

/-- C3 witness: the concrete fresh upload to the f3b transfer, whose
stats entry has start_time 0, reaches the five-field success body. -/
theorem C3_upload_response_fields_witness :
    ∃ n sp pg,
      (uploadChunk demoHash 0 1 2 stateC3b reqC3b).1 =
        ⟨200, [("status", JVal.str "ok"), ("received", JVal.int n),
               ("total", JVal.int 1),
               ("speed", JVal.num sp), ("progress", JVal.num pg)]⟩ :=
  (C3_upload_response_fields demoHash 0 1 2 stateC3b reqC3b
    { file_id := "f3b", filename := "cb.bin", size := 1, chunk_size := 1
      total_chunks := 1, merkle := "", priority := "normal"
      status := "active", created_at := 0, completed_at := none }
    { file_id := "f3b", chunk_id := 0, checksum := demoHash [4], received := 0
      received_at := none, retry_count := 0 }
    (by decide) (by decide) (by decide) (by decide) (by decide) (by decide)).2
    (by decide) 0 (by decide)

/-- Helper: reading back the chunk file just written returns the written
bytes. -/
theorem stagingLookup_write (st : List ((String × Int) × Bytes)) (k : String × Int)
    (b : Bytes) : stagingLookup (stagingWrite st k b) k = some b := by
  unfold stagingLookup stagingWrite
  rw [List.find?_append]
  have h1 : (st.filter (fun p => p.1 != k)).find? (fun p => p.1 == k) = none := by
    rw [List.find?_eq_none]
    intro p hp
    have := (List.mem_filter.mp hp).2
    simpa using this
  rw [h1]
  simp

/-- Helper: the chunk-row lookup after the stored checksum of one row was
replaced returns the same row up to that checksum field. -/
theorem findChunk_setChecksum (s : State) (fid : String) (cid : Int) (c : String) :
    findChunk (setChunkChecksum s fid cid c) fid cid =
      (findChunk s fid cid).map (fun r =>
        if r.file_id = fid ∧ r.chunk_id = cid then { r with checksum := c } else r) := by
  unfold findChunk setChunkChecksum
  dsimp only
  rw [List.find?_map]
  have hp : ((fun r : ChunkRow => r.file_id == fid && r.chunk_id == cid) ∘ (fun r =>
      if r.file_id = fid ∧ r.chunk_id = cid then { r with checksum := c } else r)) =
      (fun r : ChunkRow => r.file_id == fid && r.chunk_id == cid) := by
    funext r
    dsimp only [Function.comp]
    by_cases hk : r.file_id = fid ∧ r.chunk_id = cid
    · rw [if_pos hk]
    · rw [if_neg hk]
  rw [hp]

/-- C5 corrected: for an accepted non-duplicate upload the staged bytes
are exactly the request bytes and hash to the checksum form field; and
the acceptance does not consult the manifest-declared checksum stored in
the chunk row: replacing that stored checksum by any string whatsoever
still yields the five-field success response. -/
theorem C5_verify_against_form_field_only (sha : Bytes → String) (tStart tEnd now : Rat)
    (s : State) (req : ChunkReq) (manifest : ManifestRow) (row : ChunkRow)
    (hfn : ¬ req.chunk_filename = "") (hd : ¬ req.data.length = 0)
    (hsum : sha req.data = req.checksum)
    (hm : findManifest s req.file_id = some manifest)
    (hact : manifest.status = "active")
    (hc : findChunk s req.file_id req.chunk_id = some row)
    (hrec : ¬ row.received = 1) :
    stagingLookup (uploadChunk sha tStart tEnd now s req).2.staging
        (req.file_id, req.chunk_id) = some req.data ∧
    sha ((stagingLookup (uploadChunk sha tStart tEnd now s req).2.staging
        (req.file_id, req.chunk_id)).getD []) = req.checksum ∧
    (∀ c st0, (getMemStats s req.file_id).start_time = some st0 →
      ∃ n sp pg,
        (uploadChunk sha tStart tEnd now (setChunkChecksum s req.file_id req.chunk_id c) req).1 =
          ⟨200, [("status", JVal.str "ok"), ("received", JVal.int n),
                 ("total", JVal.int (manifest.total_chunks : Int)),
                 ("speed", JVal.num sp), ("progress", JVal.num pg)]⟩) := by
  have hstag : stagingLookup (uploadChunk sha tStart tEnd now s req).2.staging
      (req.file_id, req.chunk_id) = some req.data := by
    rw [uploadChunk_valid_eq sha tStart tEnd now s req manifest row hfn hd hsum hm hact hc,
      if_neg hrec, freshChunkWrite_staging]
    exact stagingLookup_write s.staging (req.file_id, req.chunk_id) req.data
  refine ⟨hstag, ?_, ?_⟩
  · rw [hstag]
    exact hsum
  · intro c st0 hst
    have hm' : findManifest (setChunkChecksum s req.file_id req.chunk_id c) req.file_id =
        some manifest := hm
    have hc' : findChunk (setChunkChecksum s req.file_id req.chunk_id c) req.file_id
        req.chunk_id = some (if row.file_id = req.file_id ∧ row.chunk_id = req.chunk_id
          then { row with checksum := c } else row) := by
      rw [findChunk_setChecksum, hc]
      rfl
    have hrec' : ¬ (if row.file_id = req.file_id ∧ row.chunk_id = req.chunk_id
        then { row with checksum := c } else row).received = 1 := by
      by_cases hk : row.file_id = req.file_id ∧ row.chunk_id = req.chunk_id
      · rw [if_pos hk]; exact hrec
      · rw [if_neg hk]; exact hrec
    have hst' : (getMemStats (setChunkChecksum s req.file_id req.chunk_id c)
        req.file_id).start_time = some st0 := hst
    rw [uploadChunk_valid_eq sha tStart tEnd now
      (setChunkChecksum s req.file_id req.chunk_id c) req manifest _ hfn hd hsum hm' hact hc',
      if_neg hrec']
    exact freshChunkWrite_success_resp tStart tEnd now
      (setChunkChecksum s req.file_id req.chunk_id c) req manifest st0 hst'

/-- C5 witness: the concrete f5 upload is staged as sent, and replacing
the stored declared checksum by an arbitrary other string still yields
the success response. -/
theorem C5_verify_against_form_field_only_witness :
    stagingLookup (uploadChunk demoHash 0 1 2 stateC5 reqC5).2.staging ("f5", 0) =
      some [9, 8] ∧
    ∃ n sp pg,
      (uploadChunk demoHash 0 1 2 (setChunkChecksum stateC5 "f5" 0 "another") reqC5).1 =
        ⟨200, [("status", JVal.str "ok"), ("received", JVal.int n),
               ("total", JVal.int 1),
               ("speed", JVal.num sp), ("progress", JVal.num pg)]⟩ :=
  ⟨(C5_verify_against_form_field_only demoHash 0 1 2 stateC5 reqC5
      { file_id := "f5", filename := "e.bin", size := 2, chunk_size := 2
        total_chunks := 1, merkle := "", priority := "normal"
        status := "active", created_at := 0, completed_at := none }
      { file_id := "f5", chunk_id := 0, checksum := "declared-c5", received := 0
        received_at := none, retry_count := 0 }
      (by decide) (by decide) (by decide) (by decide) (by decide) (by decide) (by decide)).1,
   (C5_verify_against_form_field_only demoHash 0 1 2 stateC5 reqC5
      { file_id := "f5", filename := "e.bin", size := 2, chunk_size := 2
        total_chunks := 1, merkle := "", priority := "normal"
        status := "active", created_at := 0, completed_at := none }
      { file_id := "f5", chunk_id := 0, checksum := "declared-c5", received := 0
        received_at := none, retry_count := 0 }
      (by decide) (by decide) (by decide) (by decide) (by decide) (by decide) (by decide)).2.2
      "another" 0 (by decide)⟩

/-- Helper: one chunk-row replacement preserves the property that every
row keyed (fid, cid) has received 0, since the freshly inserted row has
received 0. -/
theorem insertChunk_preserves_received_zero (fid : String) (cid : Int)
    (acc : List ChunkRow) (ch : ChunkMeta)
    (h : ∀ r ∈ acc, r.file_id = fid → r.chunk_id = cid → r.received = 0) :
    ∀ r ∈ insertOrReplaceChunk acc (initChunkRow fid ch),
      r.file_id = fid → r.chunk_id = cid → r.received = 0 := by
  intro r hr h1 h2
  unfold insertOrReplaceChunk at hr
  rcases List.mem_append.mp hr with hr | hr
  · exact h r (List.mem_of_mem_filter hr) h1 h2
  · rw [List.mem_singleton.mp hr]
    rfl

/-- Helper: replacing the row of key (fid, cid) establishes that every
row of that key has received 0, whatever held before. -/
theorem insertChunk_establishes_received_zero (fid : String) (cid : Int)
    (acc : List ChunkRow) (ch : ChunkMeta) (hcc : ch.chunk_id = cid) :
    ∀ r ∈ insertOrReplaceChunk acc (initChunkRow fid ch),
      r.file_id = fid → r.chunk_id = cid → r.received = 0 := by
  intro r hr h1 h2
  unfold insertOrReplaceChunk at hr
  rcases List.mem_append.mp hr with hr | hr
  · have hkeep := (List.mem_filter.mp hr).2
    exfalso
    simp only [initChunkRow, Bool.not_eq_eq_eq_not, Bool.not_true, Bool.and_eq_false_imp,
      beq_iff_eq, bne_iff_ne, ne_eq] at hkeep
    have hfalse := hkeep h1
    rw [h2, hcc] at hfalse
    simp at hfalse
  · rw [List.mem_singleton.mp hr]
    rfl

/-- Helper: the received-zero key property is preserved through the whole
chunk-row fold of upload_init. -/
theorem foldl_insertChunk_preserves_received_zero (fid : String) (cid : Int) :
    ∀ (L : List ChunkMeta) (acc : List ChunkRow),
      (∀ r ∈ acc, r.file_id = fid → r.chunk_id = cid → r.received = 0) →
      ∀ r ∈ L.foldl (fun a ch => insertOrReplaceChunk a (initChunkRow fid ch)) acc,
        r.file_id = fid → r.chunk_id = cid → r.received = 0 := by
  intro L
  induction L with
  | nil => intro acc h; exact h
  | cons ch t ih =>
      intro acc h
      exact ih _ (insertChunk_preserves_received_zero fid cid acc ch h)

/-- Helper: once the manifest lists a chunk of id cid, every row of key
(fid, cid) left by the fold has received 0. -/
theorem foldl_insertChunk_received_zero (fid : String) (cid : Int) :
    ∀ (L : List ChunkMeta) (acc : List ChunkRow),
      (∃ ch ∈ L, ch.chunk_id = cid) →
      ∀ r ∈ L.foldl (fun a ch => insertOrReplaceChunk a (initChunkRow fid ch)) acc,
        r.file_id = fid → r.chunk_id = cid → r.received = 0 := by
  intro L
  induction L with
  | nil =>
      intro acc h
      rcases h with ⟨ch, hch, _⟩
      cases hch
  | cons ch t ih =>
      intro acc h
      rcases h with ⟨ch', hch', hcc⟩
      rcases List.mem_cons.mp hch' with heq | hmem
      · subst heq
        exact foldl_insertChunk_preserves_received_zero fid cid t _
          (insertChunk_establishes_received_zero fid cid acc ch' hcc)
      · exact ih _ ⟨ch', hmem, hcc⟩

/-- Helper: a row keyed (fid, cid) survives one chunk-row replacement (it
is either kept by the filter or re-created by the inserted row). -/
theorem insertChunk_keeps_key (fid : String) (cid : Int)
    (acc : List ChunkRow) (ch : ChunkMeta)
    (h : ∃ r ∈ acc, r.file_id = fid ∧ r.chunk_id = cid) :
    ∃ r ∈ insertOrReplaceChunk acc (initChunkRow fid ch),
      r.file_id = fid ∧ r.chunk_id = cid := by
  rcases h with ⟨r, hr, hk1, hk2⟩
  by_cases hcc : ch.chunk_id = cid
  · refine ⟨initChunkRow fid ch, ?_, rfl, hcc⟩
    unfold insertOrReplaceChunk
    exact List.mem_append_right _ (List.mem_singleton_self _)
  · refine ⟨r, ?_, hk1, hk2⟩
    unfold insertOrReplaceChunk
    apply List.mem_append_left
    apply List.mem_filter.mpr
    refine ⟨hr, ?_⟩
    simp only [initChunkRow, Bool.not_eq_eq_eq_not, Bool.not_true, Bool.and_eq_false_imp,
      beq_iff_eq, bne_iff_ne, ne_eq]
    simp only [hk2]
    intro _
    exact beq_eq_false_iff_ne.mpr (fun hh => hcc hh.symm)

/-- Helper: a key present in the accumulator stays present through the
whole fold. -/
theorem foldl_insertChunk_keeps_key (fid : String) (cid : Int) :
    ∀ (L : List ChunkMeta) (acc : List ChunkRow),
      (∃ r ∈ acc, r.file_id = fid ∧ r.chunk_id = cid) →
      ∃ r ∈ L.foldl (fun a ch => insertOrReplaceChunk a (initChunkRow fid ch)) acc,
        r.file_id = fid ∧ r.chunk_id = cid := by
  intro L
  induction L with
  | nil => intro acc h; exact h
  | cons ch t ih =>
      intro acc h
      exact ih _ (insertChunk_keeps_key fid cid acc ch h)

/-- Helper: every chunk id listed in the manifest has a row of its key in
the table left by the fold. -/
theorem foldl_insertChunk_key_exists (fid : String) (cid : Int) :
    ∀ (L : List ChunkMeta) (acc : List ChunkRow),
      (∃ ch ∈ L, ch.chunk_id = cid) →
      ∃ r ∈ L.foldl (fun a ch => insertOrReplaceChunk a (initChunkRow fid ch)) acc,
        r.file_id = fid ∧ r.chunk_id = cid := by
  intro L
  induction L with
  | nil =>
      intro acc h
      rcases h with ⟨ch, hch, _⟩
      cases hch
  | cons ch t ih =>
      intro acc h
      rcases h with ⟨ch', hch', hcc⟩
      rcases List.mem_cons.mp hch' with heq | hmem
      · subst heq
        apply foldl_insertChunk_keeps_key fid cid t
        refine ⟨initChunkRow fid ch', ?_, rfl, hcc⟩
        unfold insertOrReplaceChunk
        exact List.mem_append_right _ (List.mem_singleton_self _)
      · exact ih _ ⟨ch', hmem, hcc⟩

/-- C4 corrected: posting a manifest again is not a no-op on received
chunks and returns no resumed status: the handler always answers the
plain ok body, and after it returns, every chunk id listed in the
manifest has its row present with received reset to 0, whatever its
received flag was before. -/
theorem C4_reinit_resets_received (now : Rat) (s : State) (req : InitReq) :
    (uploadInit now s req).1 = ⟨200, [("status", JVal.str "ok")]⟩ ∧
    ∀ ch ∈ req.chunks, ∃ r,
      findChunk (uploadInit now s req).2 req.file_id ch.chunk_id = some r ∧
      r.received = 0 := by
  constructor
  · rfl
  · intro ch hch
    have hex := foldl_insertChunk_key_exists req.file_id ch.chunk_id req.chunks s.chunks
      ⟨ch, hch, rfl⟩
    rcases hex with ⟨r0, hr0mem, hr0k1, hr0k2⟩
    have hfind : ((uploadInit now s req).2.chunks.find?
        (fun r => r.file_id == req.file_id && r.chunk_id == ch.chunk_id)).isSome := by
      rw [List.find?_isSome]
      exact ⟨r0, hr0mem, by simp [hr0k1, hr0k2]⟩
    rcases Option.isSome_iff_exists.mp hfind with ⟨r, hr⟩
    refine ⟨r, hr, ?_⟩
    have hrmem : r ∈ (uploadInit now s req).2.chunks := List.mem_of_find?_eq_some hr
    have hrpred := List.find?_some hr
    simp only [Bool.and_eq_true, beq_iff_eq] at hrpred
    exact foldl_insertChunk_received_zero req.file_id ch.chunk_id req.chunks s.chunks
      ⟨ch, hch, rfl⟩ r hrmem hrpred.1 hrpred.2

/-- C4 witness: re-posting the f4 manifest answers plain ok and leaves
the previously received chunk 0 reset to received 0. -/
theorem C4_reinit_resets_received_witness :
    (uploadInit 5 stateC4 reqInitC4).1 = ⟨200, [("status", JVal.str "ok")]⟩ ∧
    ∃ r, findChunk (uploadInit 5 stateC4 reqInitC4).2 "f4" 0 = some r ∧ r.received = 0 :=
  ⟨(C4_reinit_resets_received 5 stateC4 reqInitC4).1,
   (C4_reinit_resets_received 5 stateC4 reqInitC4).2
     { chunk_id := 0, size := 1, checksum := "k4" } (by decide)⟩

/-- C6 corrected: the sender re-registers exactly when the freshly
adapted size differs from the initial command-line chunk size by more
than half that initial size (and only in adaptive mode with more than one
chunk missing); the decision is independent of the size currently
declared to the coordinator; and chunk byte offsets are computed from the
locally adapted size, so they differ from the declared-chunking offsets
whenever the two sizes differ, for every chunk after the first. -/
theorem C6_resplit_uses_initial_size (adaptive : Bool) (missingLen : Nat) (sr av : Rat)
    (st : SenderState) :
    ((senderAdapt adaptive missingLen sr av st).2 = true ↔
      (adaptive = true ∧ 1 < missingLen ∧
       adaptiveChunkSize st.currentChunkSize sr av ≠ st.currentChunkSize ∧
       codeResplitCond (adaptiveChunkSize st.currentChunkSize sr av) st.argsChunkSize = true)) ∧
    (∀ d, (senderAdapt adaptive missingLen sr av { st with declaredChunkSize := d }).2 =
          (senderAdapt adaptive missingLen sr av st).2) ∧
    (∀ cid c d : Nat, 1 ≤ cid → c ≠ d →
      senderChunkStart cid c ≠ senderChunkStart cid d) := by
  refine ⟨?_, ?_, ?_⟩
  · simp only [senderAdapt]
    split_ifs with h1 h2 h3
    · exact iff_of_true rfl ⟨h1.1, h1.2, h2, h3⟩
    · exact iff_of_false (by simp) (fun h => h3 h.2.2.2)
    · exact iff_of_false (by simp) (fun h => h2 h.2.2.1)
    · exact iff_of_false (by simp) (fun h => h1 ⟨h.1, h.2.1⟩)
  · intro d
    simp only [senderAdapt]
    split_ifs <;> rfl
  · intro cid c d hcid hcd
    unfold senderChunkStart
    intro heq
    exact hcd (Nat.eq_of_mul_eq_mul_left (by omega) heq)

/-- C6 witness: from the reachable re-registered state at 452983 bytes
the source re-splits again at 543579 (though the spec condition against
the declared size would not fire, per the counterexample), and offsets
computed at the adapted size 314572 differ from those of the declared
size 262144. -/
theorem C6_resplit_uses_initial_size_witness :
    (senderAdapt true 4 1 2097152 senderStB).2 = true ∧
    senderChunkStart 1 314572 ≠ senderChunkStart 1 262144 :=
  ⟨((C6_resplit_uses_initial_size true 4 1 2097152 senderStB).1).mpr
     ⟨rfl, by decide, by decide, by decide⟩,
   (C6_resplit_uses_initial_size true 4 1 2097152 senderStB).2.2 1 314572 262144
     (by decide) (by decide)⟩

/-- Helper: full characterization of the assembly loop when it stops at a
missing chunk: the reported index is within range, its staged file is
absent, every earlier visited index is staged, and the bytes written so
far are the concatenation of the staged files of the earlier indices. -/
theorem assembleFrom_some_char (st : List ((String × Int) × Bytes)) (fid : String) :
    ∀ (n i : Nat) (b : Bytes) (m : Nat), assembleFrom st fid i n = (b, some m) →
      i ≤ m ∧ m < i + n ∧ stagingLookup st (fid, (m : Int)) = none ∧
      (∀ j, i ≤ j → j < m → (stagingLookup st (fid, (j : Int))).isSome = true) ∧
      b = ((List.range' i (m - i)).map
        (fun (j : Nat) => (stagingLookup st (fid, (j : Int))).getD [])).flatten := by
  intro n
  induction n with
  | zero =>
      intro i b m h
      simp [assembleFrom] at h
  | succ k ih =>
      intro i b m h
      rw [assembleFrom] at h
      cases hl : stagingLookup st (fid, (i : Int)) with
      | none =>
          rw [hl] at h
          dsimp only at h
          rw [Prod.mk.injEq] at h
          obtain ⟨hb, hsome⟩ := h
          have hm : i = m := by
            injection hsome
          subst hm
          refine ⟨Nat.le_refl i, by omega, hl, ?_, ?_⟩
          · intro j hji hjm
            omega
          · rw [← hb]
            simp
      | some bb =>
          rw [hl] at h
          dsimp only at h
          rw [Prod.mk.injEq] at h
          obtain ⟨hb, h2⟩ := h
          have hr : assembleFrom st fid (i + 1) k =
              ((assembleFrom st fid (i + 1) k).1, some m) := by
            rw [← h2]
          obtain ⟨ih1, ih2, ih3, ih4, ih5⟩ := ih (i + 1) _ m hr
          refine ⟨by omega, by omega, ih3, ?_, ?_⟩
          · intro j hji hjm
            rcases Nat.lt_or_ge j (i + 1) with hj | hj
            · have : j = i := by omega
              subst this
              rw [hl]
              rfl
            · exact ih4 j hj hjm
          · rw [← hb, ih5]
            have hmi : m - i = (m - (i + 1)) + 1 := by omega
            rw [hmi, List.range'_succ, List.map_cons, List.flatten_cons, hl]
            have hmi2 : m - (i + 1) = m - i - 1 := by omega
            rfl

/-- C7 corrected: when a staged chunk is missing, assemble answers a 400
client error naming the first missing index and does not touch the
manifest (so it stays active), but the partially written output — the
concatenation of the staged chunks before the first missing index — is
left on disk under the assembled name. -/
theorem C7_missing_chunk_leaves_partial_output (s : State) (fid : String)
    (m : ManifestRow) (b : Bytes) (i : Nat)
    (hm : findManifest s fid = some m)
    (hl : assembleFrom s.staging fid 0 m.total_chunks = (b, some i)) :
    assemble s fid =
      (⟨400, [("error", JVal.str ("missing chunk " ++ toString i))]⟩,
       { s with assembledFiles :=
           fileWrite s.assembledFiles ("assembled_" ++ m.filename) b }) ∧
    findManifest (assemble s fid).2 fid = some m ∧
    i < m.total_chunks ∧
    stagingLookup s.staging (fid, (i : Int)) = none ∧
    (∀ j, j < i → (stagingLookup s.staging (fid, (j : Int))).isSome = true) ∧
    b = ((List.range' 0 i).map
      (fun (j : Nat) => (stagingLookup s.staging (fid, (j : Int))).getD [])).flatten := by
  obtain ⟨hc1, hc2, hc3, hc4, hc5⟩ :=
    assembleFrom_some_char s.staging fid m.total_chunks 0 b i hl
  have hass : assemble s fid =
      (⟨400, [("error", JVal.str ("missing chunk " ++ toString i))]⟩,
       { s with assembledFiles :=
           fileWrite s.assembledFiles ("assembled_" ++ m.filename) b }) := by
    unfold assemble
    rw [hm]
    dsimp only
    rw [hl]
  refine ⟨hass, ?_, by omega, hc3, ?_, ?_⟩
  · rw [hass]
    exact hm
  · intro j hj
    exact hc4 j (Nat.zero_le j) hj
  · simpa using hc5

/-- C7 witness: the concrete f7 transfer with chunk 1 missing gets the
400 error naming index 1, keeps its manifest, and leaves the bytes of
chunk 0 in the assembled output file. -/
theorem C7_missing_chunk_leaves_partial_output_witness :
    assemble stateC7 "f7" =
      (⟨400, [("error", JVal.str ("missing chunk " ++ toString 1))]⟩,
       { stateC7 with assembledFiles := fileWrite stateC7.assembledFiles ("assembled_" ++ "g.bin") [9, 9] }) ∧
    stagingLookup stateC7.staging ("f7", (1 : Int)) = none :=
  ⟨(C7_missing_chunk_leaves_partial_output stateC7 "f7"
      { file_id := "f7", filename := "g.bin", size := 4, chunk_size := 2
        total_chunks := 2, merkle := "", priority := "normal"
        status := "active", created_at := 0, completed_at := none }
      [9, 9] 1 (by decide) (by decide)).1,
   (C7_missing_chunk_leaves_partial_output stateC7 "f7"
      { file_id := "f7", filename := "g.bin", size := 4, chunk_size := 2
        total_chunks := 2, merkle := "", priority := "normal"
        status := "active", created_at := 0, completed_at := none }
      [9, 9] 1 (by decide) (by decide)).2.2.2.1⟩

/-- C9 corrected: the missing endpoint reports the chunk ids with
received 0 in stored row order, with no sort; the list is ascending
whenever the chunk rows of the file are stored in ascending chunk_id
order (as happens when the manifest listed them ascending, the way the
reference sender builds it). -/
theorem C9_missing_in_row_order (s : State) (fid : String) :
    missingHandler s fid = ⟨200, [("missing", JVal.intList (missingOf s fid))]⟩ ∧
    (List.Sorted (· ≤ ·)
        ((s.chunks.filter (fun r => r.file_id == fid)).map (fun r => r.chunk_id)) →
      List.Sorted (· ≤ ·) (missingOf s fid)) := by
  refine ⟨rfl, fun hs => ?_⟩
  have hsub : List.Sublist (missingOf s fid)
      ((s.chunks.filter (fun r => r.file_id == fid)).map (fun r => r.chunk_id)) := by
    unfold missingOf
    apply List.Sublist.map
    have hff : s.chunks.filter (fun r => r.file_id == fid && r.received == 0) =
        (s.chunks.filter (fun r => r.file_id == fid)).filter (fun r => r.received == 0) := by
      rw [List.filter_filter]
      exact List.filter_congr (fun a _ => Bool.and_comm _ _)
    rw [hff]
    exact List.filter_sublist _
  exact List.Pairwise.sublist hsub hs

/-- C9 witness: for rows stored ascending, the missing list of the f9b
transfer comes out in ascending order. -/
theorem C9_missing_in_row_order_witness :
    missingHandler stateC9b "f9b" =
      ⟨200, [("missing", JVal.intList (missingOf stateC9b "f9b"))]⟩ ∧
    List.Sorted (· ≤ ·) (missingOf stateC9b "f9b") :=
  ⟨(C9_missing_in_row_order stateC9b "f9b").1,
   (C9_missing_in_row_order stateC9b "f9b").2 (by decide)⟩

end SFTS
